import Mathlib

/-!
# Verification of `marimo/_server/file_manager.py`

A shallow embedding of `AppFileManager` (the notebook file manager) and the
module-level side-file readers, together with theorems settling the frozen
claims about their behaviour.

Modelling conventions:
* The filesystem is explicit state: an association list from paths to file
  contents, together with the sets of paths on which `open`-for-read and
  `open`-for-write raise `OSError` (modelling environmental failures such as
  permissions).
* Python exceptions become explicit error values.  A raised exception
  propagates to the caller but leaves the mutations performed so far in
  place, so stateful operations return an `Outcome`: a result together with
  the manager state and filesystem at the moment of return or raise.
* External collaborators that are not part of this file
  (`codegen.generate_filecontents`, `codegen.get_header_comments`,
  `Exporter.export_as_md`, `save_layout_config`) are abstracted as a record
  of pure functions, exactly as the spec scopes them.
* `os.path` helpers and `canonicalize_filename` are modelled from the spec
  (their sources are outside this repository slice).
-/

namespace MarimoFM

/-- Embeds `String.startsWith`, computed on the character list so that concrete
instances reduce inside the kernel. -/
def strStartsWith (s pre : String) : Bool :=
  pre.toList.isPrefixOf s.toList

/-- Embeds `String.endsWith`, computed on the character list so that concrete
instances reduce inside the kernel. -/
def strEndsWith (s suffix : String) : Bool :=
  suffix.toList.isSuffixOf s.toList

/-- Python `str.strip()`: drop the surrounding whitespace characters. -/
def strTrim (s : String) : String :=
  let ws := fun c => c = ' ' || c = '\t' || c = '\n' || c = '\r'
  String.mk (((s.toList.dropWhile ws).reverse.dropWhile ws).reverse)

/-- Modelled from the spec: `os.path.abspath` (Path Resolver).  Absolute
paths (starting with a slash) are fixed points; relative paths are resolved
against a fixed working directory. -/
def abspath (p : String) : String :=
  if strStartsWith p "/" then p else "/cwd/" ++ p

/-- Modelled from the spec: `canonicalize_filename` from
`marimo._server.utils` (not under the repository slice).  Extension
defaulting: a filename that does not already end in a recognised notebook
extension gets the native `.py` extension appended.  Deterministic and
idempotent. -/
def canonicalize_filename (filename : String) : String :=
  if strEndsWith filename ".py" || strEndsWith filename ".md" then filename
  else filename ++ ".py"

/-- Modelled from the spec: `os.path.dirname` (POSIX): everything up to the
last slash, with trailing slashes stripped unless the head is all slashes. -/
def dirname (p : String) : String :=
  let head := (p.toList.reverse.dropWhile (fun c => c ≠ '/')).reverse
  if head.isEmpty then ""
  else if head.all (fun c => c = '/') then String.mk head
  else String.mk ((head.reverse.dropWhile (fun c => c = '/')).reverse)

/-- Modelled from the spec: `os.path.basename` (POSIX): everything after the
last slash. -/
def basename (p : String) : String :=
  String.mk ((p.toList.reverse.takeWhile (fun c => c ≠ '/')).reverse)

/-- Modelled from the spec: `os.path.join` (POSIX) for two components. -/
def joinPath (a b : String) : String :=
  if strStartsWith b "/" then b
  else if a.isEmpty then b
  else if strEndsWith a "/" then a ++ b
  else a ++ "/" ++ b

/-- Python `s[-3:]`: the last three characters (the whole string when it is
shorter). -/
def lastThree (s : String) : String :=
  String.mk ((s.toList.reverse.take 3).reverse)

/-- Python truthiness of an `Optional[str]`: `None` and the empty string are
falsy. -/
def strFalsy (x : Option String) : Bool :=
  match x with
  | none => true
  | some s => s.isEmpty

/-- The HTTP status classes used by `HTTPException` in the source. -/
inductive HTTPStatus where
  | BAD_REQUEST
  | SERVER_ERROR
deriving DecidableEq, Repr

/-- A raised Python exception, as seen by the caller: either a structured
`HTTPException` (status class plus detail message) or a raw `OSError`
propagating unwrapped. -/
inductive Err where
  | http (status : HTTPStatus) (detail : String)
  | os (msg : String)
deriving DecidableEq, Repr

deriving instance DecidableEq for Except

/-- The filesystem state: files as an association list from path to
contents, plus the paths on which opening for reading or writing raises
`OSError` (permissions and similar environmental failures). -/
structure FS where
  files : List (String × String)
  unreadable : List String := []
  unwritable : List String := []
deriving DecidableEq, Repr

/-- Contents of the file at `p`, when present. -/
def FS.lookup (fs : FS) (p : String) : Option String :=
  fs.files.lookup p

/-- Embeds `os.path.exists`. -/
def FS.existsPath (fs : FS) (p : String) : Bool :=
  (fs.lookup p).isSome

/-- Remove the entry at `p`. -/
def FS.erase (fs : FS) (p : String) : FS :=
  { fs with files := fs.files.filter (fun kv => kv.1 ≠ p) }

/-- Create or overwrite the file at `p` with contents `c`. -/
def FS.write (fs : FS) (p c : String) : FS :=
  { (fs.erase p) with files := (p, c) :: (fs.erase p).files }

/-- Embeds `open(p, "r").read()`: raises `OSError` when the file is missing or
unreadable. -/
def FS.readFile (fs : FS) (p : String) : Except Err String :=
  match fs.lookup p with
  | none => .error (.os ("No such file or directory: " ++ p))
  | some contents =>
    if p ∈ fs.unreadable then .error (.os ("Permission denied: " ++ p))
    else .ok contents

/-- Per-cell configuration (`marimo._ast.cell.CellConfig`, outside the
slice); modelled from the spec as a record of display options. -/
structure CellConfig where
  column : Option Int := none
  disabled : Bool := false
  hide_code : Bool := false
deriving DecidableEq, Repr

/-- Document-level configuration (`marimo._ast.app._AppConfig`, outside the
slice); modelled from the spec with the fields the file manager consults. -/
structure AppConfig where
  layout_file : Option String := none
  css_file : Option String := none
  html_head_file : Option String := none
  width : Option String := none
deriving DecidableEq, Repr

/-- The cell manager (`marimo._ast.cell_manager`, outside the slice):
ordered parallel lists of cell ids, codes, display names and per-cell
configs.  Modelled from the spec's Document data model. -/
structure CellManager where
  cell_ids : List Nat := []
  codes : List String := []
  names : List String := []
  configs : List CellConfig := []
deriving DecidableEq, Repr

/-- Modelled from the spec: `CellManager.register_cell` with an
auto-assigned id appends one cell (id fresh, default display name). -/
def CellManager.register_cell (cm : CellManager) (code : String)
    (config : CellConfig) : CellManager :=
  { cm with
    cell_ids := cm.cell_ids ++ [cm.cell_ids.length]
    codes := cm.codes ++ [code]
    names := cm.names ++ ["_"]
    configs := cm.configs ++ [config] }

/-- Modelled from the spec: `CellManager.ensure_one_cell` pads a document
that has zero cells with exactly one empty cell. -/
def CellManager.ensure_one_cell (cm : CellManager) : CellManager :=
  if cm.codes.isEmpty then cm.register_cell "" {} else cm

/-- The in-memory document (`InternalApp` wrapping `App`, outside the
slice): a cell manager plus document-level configuration. -/
structure InternalApp where
  cell_manager : CellManager := {}
  config : AppConfig := {}
deriving DecidableEq, Repr

/-- Modelled from the spec: `InternalApp.with_data` replaces the document's
cell/name/config lists wholesale (full replace, not incremental patch). -/
def InternalApp.with_data (app : InternalApp) (cell_ids : List Nat)
    (codes : List String) (names : List String) (configs : List CellConfig) :
    InternalApp :=
  { app with
    cell_manager :=
      { cell_ids := cell_ids, codes := codes, names := names,
        configs := configs } }

/-- Modelled from the spec: `InternalApp.update_config`, restricted to the
`layout_file` key — the only key the `save` path updates. -/
def InternalApp.update_config_layout_file (app : InternalApp)
    (v : Option String) : InternalApp :=
  { app with config := { app.config with layout_file := v } }

/-- Modelled from the spec: `InternalApp.register_cell` forwards to the cell
manager. -/
def InternalApp.register_cell (app : InternalApp) (code : String)
    (config : CellConfig) : InternalApp :=
  { app with cell_manager := app.cell_manager.register_cell code config }

/-- Modelled from the spec: `InternalApp.ensure_one_cell` forwards to the
cell manager. -/
def InternalApp.ensure_one_cell (app : InternalApp) : InternalApp :=
  { app with cell_manager := app.cell_manager.ensure_one_cell }

/-- Embeds `AppFileManager` state: the optional filename and the owned document. -/
structure AppFileManager where
  filename : Option String
  app : InternalApp
deriving DecidableEq, Repr

/-- Layout payload, treated at its interface (external collaborator). -/
structure LayoutConfig where
  data : List (String × String) := []
deriving DecidableEq, Repr

/-- The external collaborators of the file manager, treated as pure
functions exactly as the spec scopes them: the native serializer, the
header-comment reader (applied to the current contents at the target path),
the markup exporter, and the layout writer (which writes the layout file and
returns its name). -/
structure Codegen where
  generate_filecontents : List String → List String → List CellConfig →
    AppConfig → Option String → String
  get_header_comments : Option String → Option String
  export_as_md : AppFileManager → String
  save_layout_config : FS → String → String → LayoutConfig → (String × FS)

/-- Embeds `SaveNotebookRequest` (from `marimo._server.models.models`). -/
structure SaveNotebookRequest where
  cell_ids : List Nat
  codes : List String
  configs : List CellConfig
  names : List String
  filename : String
  layout : Option LayoutConfig := none
  persist : Bool
deriving Repr

/-- Embeds `CopyNotebookRequest` (from `marimo._server.models.models`). -/
structure CopyNotebookRequest where
  source : String
  destination : String
deriving DecidableEq, Repr

/-- The result of a stateful operation: the returned value or propagating
exception, together with the manager and filesystem at that moment (a raised
exception does not roll back mutations already performed). -/
structure Outcome (α : Type) where
  result : Except Err α
  manager : AppFileManager
  fs : FS

/-- Embeds `AppFileManager._is_unnamed`. -/
def AppFileManager._is_unnamed (m : AppFileManager) : Bool :=
  m.filename.isNone

/-- Embeds `AppFileManager._is_named`. -/
def AppFileManager._is_named (m : AppFileManager) : Bool :=
  m.filename.isSome

/-- Embeds `AppFileManager._is_same_path`: compares the absolute forms of the
current filename and the argument; an unnamed manager matches nothing. -/
def AppFileManager._is_same_path (m : AppFileManager) (filename : String) :
    Bool :=
  match m.filename with
  | none => false
  | some f => abspath f == abspath filename

/-- Embeds `AppFileManager.path` property: the absolute form of the filename. -/
def AppFileManager.path (m : AppFileManager) : Option String :=
  m.filename.map abspath

/-- Embeds `AppFileManager._assert_path_does_not_exist`: raises 400 when a file
already exists at `filename`. -/
def _assert_path_does_not_exist (fs : FS) (filename : String) :
    Except Err Unit :=
  if fs.existsPath filename then
    .error (.http .BAD_REQUEST ("File " ++ filename ++ " already exists"))
  else .ok ()

/-- Embeds `AppFileManager._create_file`: writes `contents` at `filename`,
wrapping a failed write in a structured 500.  Parent-directory creation is
best-effort in the source (failures swallowed) and is not modelled. -/
def _create_file (fs : FS) (filename contents : String) : Except Err FS :=
  if filename ∈ fs.unwritable then
    .error (.http .SERVER_ERROR ("Failed to save file " ++ filename))
  else .ok (fs.write filename contents)

/-- Embeds `AppFileManager._rename_file`: `os.rename` of the current file to
`new_filename`, wrapping any filesystem failure (missing source, unwritable
destination) in a structured 500.  The source asserts the manager is named. -/
def _rename_file (m : AppFileManager) (fs : FS) (new_filename : String) :
    Except Err FS :=
  match m.filename with
  | none => .error (.os "AssertionError: filename is None")
  | some old =>
    match fs.lookup old with
    | none =>
      .error (.http .SERVER_ERROR
        ("Failed to rename from " ++ old ++ " to " ++ new_filename))
    | some contents =>
      if new_filename ∈ fs.unwritable then
        .error (.http .SERVER_ERROR
          ("Failed to rename from " ++ old ++ " to " ++ new_filename))
      else .ok ((fs.erase old).write new_filename contents)

mutual

/-- Embeds `AppFileManager._save_file`: serialize (markup exporter for `.md`
targets, otherwise the native serializer with the header comments read from
whatever currently exists at the target), write to disk when `persist`, and
— if the manager is unnamed — adopt the target by calling `rename`.  `fuel`
bounds the `_save_file`/`rename` cross-recursion, which the source never
drives deeper than one call each way. -/
def _save_file (fuel : Nat) (cg : Codegen) (m : AppFileManager) (fs : FS)
    (filename : String) (codes : List String) (names : List String)
    (configs : List CellConfig) (app_config : AppConfig) (persist : Bool) :
    Outcome String :=
  let contents :=
    if strEndsWith filename ".md" then cg.export_as_md m
    else
      let header_comments := cg.get_header_comments (fs.lookup filename)
      cg.generate_filecontents codes names configs app_config header_comments
  match (if persist then _create_file fs filename contents else .ok fs) with
  | .error e => { result := .error e, manager := m, fs := fs }
  | .ok fs1 =>
    if m._is_unnamed then
      match fuel with
      | 0 => { result := .error (.os "fuel exhausted"), manager := m, fs := fs1 }
      | fuel' + 1 =>
        let o := rename fuel' cg m fs1 filename
        { result := o.result.map (fun _ => contents), manager := o.manager,
          fs := o.fs }
    else { result := .ok contents, manager := m, fs := fs1 }
termination_by structural fuel

/-- Embeds `AppFileManager.rename`: canonicalize; no-op when the target is the
current path; fail 400 when a file exists at the target; move the current
file (named manager) or create an empty file (unnamed manager); adopt the
new name; and force a re-save when the last three characters (the extension
class) changed. -/
def rename (fuel : Nat) (cg : Codegen) (m : AppFileManager) (fs : FS)
    (new_filename0 : String) : Outcome Unit :=
  let new_filename := canonicalize_filename new_filename0
  if m._is_same_path new_filename then
    { result := .ok (), manager := m, fs := fs }
  else
    match _assert_path_does_not_exist fs new_filename with
    | .error e => { result := .error e, manager := m, fs := fs }
    | .ok _ =>
      match m.filename with
      | some old =>
        let need_save := lastThree old != lastThree new_filename
        match _rename_file m fs new_filename with
        | .error e => { result := .error e, manager := m, fs := fs }
        | .ok fs1 =>
          let m1 := { m with filename := some new_filename }
          if need_save then
            match fuel with
            | 0 => { result := .error (.os "fuel exhausted"), manager := m1,
                     fs := fs1 }
            | fuel' + 1 =>
              let o := _save_file fuel' cg m1 fs1 new_filename
                m1.app.cell_manager.codes m1.app.cell_manager.names
                m1.app.cell_manager.configs m1.app.config true
              { result := o.result.map (fun _ => ()), manager := o.manager,
                fs := o.fs }
          else { result := .ok (), manager := m1, fs := fs1 }
      | none =>
        match _create_file fs new_filename "" with
        | .error e => { result := .error e, manager := m, fs := fs }
        | .ok fs1 =>
          { result := .ok (), manager := { m with filename := some new_filename },
            fs := fs1 }
termination_by structural fuel

end

/-- Embeds `AppFileManager.save`: canonicalize the target, replace the in-memory
document with the request's data, reject relocation of a named manager,
handle the layout payload, and delegate to `_save_file`. -/
def save (fuel : Nat) (cg : Codegen) (m : AppFileManager) (fs : FS)
    (request : SaveNotebookRequest) : Outcome String :=
  let filename := canonicalize_filename request.filename
  let m1 : AppFileManager :=
    { m with
      app := m.app.with_data request.cell_ids request.codes request.names
        request.configs }
  if m1._is_named && !(m1._is_same_path filename) then
    { result := .error (.http .BAD_REQUEST "Save handler cannot rename files."),
      manager := m1, fs := fs }
  else
    match request.layout with
    | some layout =>
      let app_dir := dirname filename
      let app_name := basename filename
      let lfs := cg.save_layout_config fs app_dir app_name layout
      let m2 := { m1 with app := m1.app.update_config_layout_file (some lfs.1) }
      _save_file fuel cg m2 lfs.2 filename request.codes request.names
        request.configs m2.app.config request.persist
    | none =>
      let m2 := { m1 with app := m1.app.update_config_layout_file none }
      _save_file fuel cg m2 fs filename request.codes request.names
        request.configs m2.app.config request.persist

/-- Embeds `AppFileManager.copy`: `shutil.copy(source, destination)` followed by
`os.path.basename(destination)`.  The method never touches `self`, and —
unlike `_create_file`/`_rename_file` — does not wrap filesystem failures:
a raised `OSError` propagates raw. -/
def copy (_self : AppFileManager) (fs : FS) (request : CopyNotebookRequest) :
    Except Err (String × FS) :=
  match fs.readFile request.source with
  | .error e => .error e
  | .ok contents =>
    if request.destination ∈ fs.unwritable then
      .error (.os ("Permission denied: " ++ request.destination))
    else .ok (basename request.destination, fs.write request.destination contents)

/-- Embeds `AppFileManager.read_file`: raise 400 for an unnamed manager, otherwise
open the file and return its contents stripped of surrounding whitespace
(any `OSError` from `open` propagates raw). -/
def read_file (m : AppFileManager) (fs : FS) : Except Err String :=
  match m.filename with
  | none =>
    .error (.http .BAD_REQUEST "Cannot read code from an unnamed notebook")
  | some f =>
    match fs.readFile f with
    | .error e => .error e
    | .ok contents => .ok (strTrim contents)

/-- Embeds `AppFileManager._load_app`, applied to the (external) parse result
`codegen.get_app(path)`: when the parse yields nothing, seed a fresh
document with exactly one empty cell (honouring a caller-supplied default
width); otherwise wrap the parse and pad to at least one cell. -/
def _load_app (default_width : Option String) (parsed : Option InternalApp) :
    InternalApp :=
  match parsed with
  | none =>
    let empty_app : InternalApp := { config := { width := default_width } }
    empty_app.register_cell "" {}
  | some app => app.ensure_one_cell

/-- Embeds `AppFileManager.__init__`: store the filename and load the app from the
parse result at `self.path` (`codegen.get_app` returns nothing for an
absent path or an unparsable file). -/
def AppFileManager.init (filename : Option String)
    (default_width : Option String) (parsed : Option InternalApp) :
    AppFileManager :=
  { filename := filename, app := _load_app default_width parsed }

/-- Module-level `read_css_file`: resolve the relative CSS file against the
document's directory; absent name, absent path, missing file, and an
`OSError` on open all yield `none` (soft absence), never an error. -/
def read_css_file (fs : FS) (css_file : String) (filename : Option String) :
    Option String :=
  match filename with
  | none => none
  | some fname =>
    if css_file.isEmpty || fname.isEmpty then none
    else
      let app_dir := dirname fname
      let filepath := joinPath app_dir css_file
      if !(fs.existsPath filepath) then none
      else
        match fs.readFile filepath with
        | .ok c => some c
        | .error _ => none

/-- Module-level `read_html_head_file`: same soft-absence policy as the CSS
reader. -/
def read_html_head_file (fs : FS) (html_head_file : String)
    (filename : Option String) : Option String :=
  match filename with
  | none => none
  | some fname =>
    if html_head_file.isEmpty || fname.isEmpty then none
    else
      let app_dir := dirname fname
      let filepath := joinPath app_dir html_head_file
      if !(fs.existsPath filepath) then none
      else
        match fs.readFile filepath with
        | .ok c => some c
        | .error _ => none

/-- Embeds `AppFileManager.read_css_file`: short-circuits to `none` when the
config's CSS reference or the manager's filename is falsy (absent or the
empty string), otherwise delegates to the module-level reader. -/
def AppFileManager.read_css_file (m : AppFileManager) (fs : FS) :
    Option String :=
  let css_file := m.app.config.css_file
  if strFalsy css_file || strFalsy m.filename then none
  else MarimoFM.read_css_file fs (css_file.getD "") m.filename

/-- Embeds `AppFileManager.read_html_head_file`: same falsiness short-circuit as
the CSS variant. -/
def AppFileManager.read_html_head_file (m : AppFileManager) (fs : FS) :
    Option String :=
  let html_head_file := m.app.config.html_head_file
  if strFalsy html_head_file || strFalsy m.filename then none
  else MarimoFM.read_html_head_file fs (html_head_file.getD "") m.filename


/-! ## Concrete instances used by witnesses and counterexamples -/

/-- A concrete serializer/exporter/layout-writer instance. -/
def cgW : Codegen where
  generate_filecontents := fun codes _names _configs _cfg header =>
    (match header with | some h => h ++ "\n" | none => "") ++
      "# generated\n" ++ String.intercalate "\n" codes
  get_header_comments := fun _contents => none
  export_as_md := fun m =>
    "md-export:" ++ String.intercalate ";" m.app.cell_manager.codes
  save_layout_config := fun fs d n _layout =>
    let lf := joinPath d ("layouts/" ++ n ++ ".json")
    (lf, fs.write lf "layout")

/-- The empty filesystem. -/
def fs0 : FS := { files := [] }

/-- A freshly constructed unnamed manager (absent path, nothing parsed). -/
def mUnnamed : AppFileManager := AppFileManager.init none none none

/-- A one-cell document used by the named-manager scenarios. -/
def appA : InternalApp :=
  { cell_manager :=
      { cell_ids := [0], codes := ["x=1"], names := ["_"], configs := [{}] } }

/-- A named manager at `/tmp/a.py`. -/
def mA : AppFileManager := { filename := some "/tmp/a.py", app := appA }

/-- A filesystem holding the named manager's file. -/
def fsA : FS := { files := [("/tmp/a.py", "# generated\nx=1")] }

/-- A persisting save request targeting `/tmp/nb.py`. -/
def reqP : SaveNotebookRequest :=
  { cell_ids := [0], codes := ["x=1"], configs := [{}], names := ["_"],
    filename := "/tmp/nb.py", persist := true }

/-- The same request in dry-run mode. -/
def reqPdry : SaveNotebookRequest := { reqP with persist := false }

/-- A save request relocating to `/tmp/b.py` with replaced cell code. -/
def reqB : SaveNotebookRequest :=
  { reqP with filename := "/tmp/b.py", codes := ["y=2"] }

/-- A copy request whose source does not exist. -/
def reqCopyMissing : CopyNotebookRequest :=
  { source := "a.py", destination := "b.py" }

/-- Whether a result is a raised structured `HTTPException` (as opposed to a
normal return or a raw `OSError`). -/
def isHttpError {α : Type} : Except Err α → Bool
  | .error (.http _ _) => true
  | _ => false

/-! ## Claim theorems -/

/-- C1: the first persisting `save` of an unnamed manager raises instead of
succeeding — `_save_file` creates the file at the target and only then calls
`rename`, whose `_assert_path_does_not_exist` sees the just-created file and
raises 400 "already exists"; the manager stays unnamed even though the file
was written. -/
theorem c1_unnamed_first_persist_save_raises_already_exists :
    (save 4 cgW mUnnamed fs0 reqP).result =
      .error (.http .BAD_REQUEST "File /tmp/nb.py already exists") ∧
    (save 4 cgW mUnnamed fs0 reqP).manager.filename = none ∧
    (save 4 cgW mUnnamed fs0 reqP).fs.lookup "/tmp/nb.py" =
      some "# generated\nx=1" := by
  decide

/-- C2 counterexample: a dry-run (`persist = false`) `save` of an unnamed
manager does touch disk — the implicit first-save `rename` creates an empty
file at the target path and the manager adopts the name. -/
theorem c2_counterexample_unnamed_dry_run_creates_file :
    fs0.lookup "/tmp/nb.py" = none ∧
    (save 4 cgW mUnnamed fs0 reqPdry).fs.lookup "/tmp/nb.py" = some "" ∧
    (save 4 cgW mUnnamed fs0 reqPdry).manager.filename = some "/tmp/nb.py" := by
  decide

/-- C3 counterexample: a `save` rejected with "Save handler cannot rename
files." has already replaced the in-memory document's cells with the
request's data — `with_data` runs before the same-path check. -/
theorem c3_counterexample_rejected_save_replaces_document :
    (save 4 cgW mA fsA reqB).result =
      .error (.http .BAD_REQUEST "Save handler cannot rename files.") ∧
    (save 4 cgW mA fsA reqB).manager.filename = mA.filename ∧
    mA.app.cell_manager.codes = ["x=1"] ∧
    (save 4 cgW mA fsA reqB).manager.app.cell_manager.codes = ["y=2"] ∧
    (["y=2"] : List String) ≠ ["x=1"] := by
  decide

/-- C7 counterexample: `copy` with a missing source lets the raw `OSError`
propagate — the failure is not wrapped as a structured server-error
`HTTPException`. -/
theorem c7_counterexample_copy_error_not_http :
    copy mA fs0 reqCopyMissing =
      .error (.os "No such file or directory: a.py") ∧
    isHttpError (copy mA fs0 reqCopyMissing) = false :=
  ⟨rfl, rfl⟩

/-- C5: `rename` onto a path where a file already exists (and which is not
the manager's current path) fails with 400 "already exists" and leaves both
the manager and the filesystem untouched. -/
theorem c5_rename_to_existing_path_fails_unchanged
    (fuel : Nat) (cg : Codegen) (m : AppFileManager) (fs : FS) (q : String)
    (hexists : fs.existsPath (canonicalize_filename q) = true)
    (hnotsame : m._is_same_path (canonicalize_filename q) = false) :
    (rename fuel cg m fs q).result =
      .error (.http .BAD_REQUEST
        ("File " ++ canonicalize_filename q ++ " already exists")) ∧
    (rename fuel cg m fs q).manager = m ∧
    (rename fuel cg m fs q).fs = fs := by
  unfold rename _assert_path_does_not_exist
  simp [hexists, hnotsame]

/-- C5 witness: the general theorem applied at a concrete manager,
filesystem and target. -/
theorem c5_witness :
    let fsAB : FS := { files := [("/tmp/a.py", "A"), ("/tmp/b.py", "B")] }
    fsAB.existsPath (canonicalize_filename "/tmp/b.py") = true ∧
    mA._is_same_path (canonicalize_filename "/tmp/b.py") = false ∧
    ((rename 4 cgW mA fsAB "/tmp/b.py").result =
      .error (.http .BAD_REQUEST "File /tmp/b.py already exists") ∧
    (rename 4 cgW mA fsAB "/tmp/b.py").manager = mA ∧
    (rename 4 cgW mA fsAB "/tmp/b.py").fs = fsAB) :=
  ⟨by decide, by decide,
   c5_rename_to_existing_path_fails_unchanged 4 cgW mA
     { files := [("/tmp/a.py", "A"), ("/tmp/b.py", "B")] } "/tmp/b.py"
     (by decide) (by decide)⟩

/-- Helper: a `save` on a named manager whose canonicalized target differs
from the current path is rejected with 400 after the in-memory document has
been replaced; path, config and filesystem are untouched. -/
theorem save_named_reject (fuel : Nat) (cg : Codegen) (m : AppFileManager)
    (fs : FS) (request : SaveNotebookRequest) (f : String)
    (hnamed : m.filename = some f)
    (hdiff : m._is_same_path (canonicalize_filename request.filename) = false) :
    save fuel cg m fs request =
      { result := .error (.http .BAD_REQUEST "Save handler cannot rename files."),
        manager :=
          { m with
            app := m.app.with_data request.cell_ids request.codes
                request.names request.configs },
        fs := fs } := by
  unfold save
  simp only [AppFileManager._is_named, AppFileManager._is_same_path, hnamed,
    Option.isSome_some, Bool.true_and] at *
  simp [hdiff]

/-- Helper: a `rename` whose underlying filesystem rename fails (missing
source) raises 500 and leaves the manager and filesystem untouched. -/
theorem rename_fs_rename_fails (fuel : Nat) (cg : Codegen)
    (m : AppFileManager) (fs : FS) (p f : String)
    (hnamed : m.filename = some f)
    (hnotsame : m._is_same_path (canonicalize_filename p) = false)
    (hnotex : fs.existsPath (canonicalize_filename p) = false)
    (hmissing : fs.lookup f = none) :
    rename fuel cg m fs p =
      { result := .error (.http .SERVER_ERROR
          ("Failed to rename from " ++ f ++ " to " ++ canonicalize_filename p)),
        manager := m, fs := fs } := by
  unfold rename _assert_path_does_not_exist _rename_file
  simp [hnotsame, hnotex, hnamed, hmissing]

/-- C3 (amended): a `save` rejected because the canonicalized target
differs from a named manager's path leaves the path, the filesystem and the
document-level config unchanged, but the in-memory cells/names/configs have
already been replaced with the request's lists before the rejection; a
failed filesystem rename leaves the manager (path and document) and the
filesystem entirely unchanged. -/
theorem c3_amended_failed_ops_preserve_path_and_fs :
    (∀ (fuel : Nat) (cg : Codegen) (m : AppFileManager) (fs : FS)
        (request : SaveNotebookRequest) (f : String),
        m.filename = some f →
        m._is_same_path (canonicalize_filename request.filename) = false →
        (save fuel cg m fs request).result =
          .error (.http .BAD_REQUEST "Save handler cannot rename files.") ∧
        (save fuel cg m fs request).manager.filename = m.filename ∧
        (save fuel cg m fs request).fs = fs ∧
        (save fuel cg m fs request).manager.app.config = m.app.config ∧
        (save fuel cg m fs request).manager.app.cell_manager =
          { cell_ids := request.cell_ids, codes := request.codes,
            names := request.names, configs := request.configs }) ∧
    (∀ (fuel : Nat) (cg : Codegen) (m : AppFileManager) (fs : FS)
        (p f : String),
        m.filename = some f →
        m._is_same_path (canonicalize_filename p) = false →
        fs.existsPath (canonicalize_filename p) = false →
        fs.lookup f = none →
        (rename fuel cg m fs p).result =
          .error (.http .SERVER_ERROR
            ("Failed to rename from " ++ f ++ " to " ++ canonicalize_filename p)) ∧
        (rename fuel cg m fs p).manager = m ∧
        (rename fuel cg m fs p).fs = fs) := by
  constructor
  · intro fuel cg m fs request f hnamed hdiff
    rw [save_named_reject fuel cg m fs request f hnamed hdiff]
    exact ⟨rfl, rfl, rfl, rfl, rfl⟩
  · intro fuel cg m fs p f hnamed hnotsame hnotex hmissing
    rw [rename_fs_rename_fails fuel cg m fs p f hnamed hnotsame hnotex hmissing]
    exact ⟨rfl, rfl, rfl⟩

/-- C3 witness: the amended theorem applied at concrete inputs — a named
manager saved towards a different path, and a rename whose source file is
missing. -/
theorem c3_amended_witness :
    (mA.filename = some "/tmp/a.py" ∧
     mA._is_same_path (canonicalize_filename reqB.filename) = false ∧
     ((save 4 cgW mA fsA reqB).result =
        .error (.http .BAD_REQUEST "Save handler cannot rename files.") ∧
      (save 4 cgW mA fsA reqB).manager.filename = mA.filename ∧
      (save 4 cgW mA fsA reqB).fs = fsA ∧
      (save 4 cgW mA fsA reqB).manager.app.config = mA.app.config ∧
      (save 4 cgW mA fsA reqB).manager.app.cell_manager =
        { cell_ids := reqB.cell_ids, codes := reqB.codes,
          names := reqB.names, configs := reqB.configs })) ∧
    (mA.filename = some "/tmp/a.py" ∧
     mA._is_same_path (canonicalize_filename "/tmp/c.py") = false ∧
     fs0.existsPath (canonicalize_filename "/tmp/c.py") = false ∧
     fs0.lookup "/tmp/a.py" = none ∧
     ((rename 4 cgW mA fs0 "/tmp/c.py").result =
        .error (.http .SERVER_ERROR
          "Failed to rename from /tmp/a.py to /tmp/c.py") ∧
      (rename 4 cgW mA fs0 "/tmp/c.py").manager = mA ∧
      (rename 4 cgW mA fs0 "/tmp/c.py").fs = fs0)) :=
  ⟨⟨by decide, by decide,
    c3_amended_failed_ops_preserve_path_and_fs.1 4 cgW mA fsA reqB "/tmp/a.py"
      (by decide) (by decide)⟩,
   ⟨by decide, by decide, by decide, by decide,
    c3_amended_failed_ops_preserve_path_and_fs.2 4 cgW mA fs0 "/tmp/c.py"
      "/tmp/a.py" (by decide) (by decide) (by decide) (by decide)⟩⟩

/-- Helper: `List.lookup` of the key just consed on. -/
theorem lookup_cons_self {v : String} {l : List (String × String)}
    (p : String) : ((p, v) :: l).lookup p = some v := by
  simp [List.lookup]

/-- Helper: `List.lookup` skips a cons with a different key. -/
theorem lookup_cons_ne {v : String} {l : List (String × String)}
    {p k : String} (h : p ≠ k) : ((k, v) :: l).lookup p = l.lookup p := by
  simp [List.lookup, beq_eq_false_iff_ne.mpr h]

/-- Helper: filtering out another key does not change a lookup. -/
theorem lookup_filter_ne (l : List (String × String)) (p q : String)
    (h : p ≠ q) :
    (l.filter (fun kv => kv.1 ≠ q)).lookup p = l.lookup p := by
  induction l with
  | nil => rfl
  | cons kv l ih =>
    rcases kv with ⟨k, v⟩
    by_cases hk : k = q
    · rw [List.filter_cons_of_neg (by simp [hk])]
      rw [lookup_cons_ne (fun hpk => h (hpk.trans hk))]
      exact ih
    · rw [List.filter_cons_of_pos (by simp [hk])]
      by_cases hp : p = k
      · subst hp
        rw [lookup_cons_self, lookup_cons_self]
      · rw [lookup_cons_ne hp, lookup_cons_ne hp]
        exact ih

/-- Helper: a lookup after filtering out that very key yields nothing. -/
theorem lookup_filter_self (l : List (String × String)) (p : String) :
    (l.filter (fun kv => kv.1 ≠ p)).lookup p = none := by
  induction l with
  | nil => rfl
  | cons kv l ih =>
    rcases kv with ⟨k, v⟩
    by_cases hk : k = p
    · rw [List.filter_cons_of_neg (by simp [hk])]
      exact ih
    · rw [List.filter_cons_of_pos (by simp [hk])]
      rw [lookup_cons_ne (fun hpk => hk hpk.symm)]
      exact ih

/-- A write is visible at its own path. -/
theorem FS.lookup_write_self (fs : FS) (p c : String) :
    (fs.write p c).lookup p = some c := by
  simp [FS.write, FS.lookup, List.lookup]

/-- A write leaves other paths untouched. -/
theorem FS.lookup_write_ne (fs : FS) {p q : String} (c : String)
    (h : p ≠ q) : (fs.write q c).lookup p = fs.lookup p := by
  show (((q, c) :: (fs.erase q).files).lookup p) = fs.lookup p
  rw [lookup_cons_ne h]
  exact lookup_filter_ne fs.files p q h

/-- An erased path has no contents. -/
theorem FS.lookup_erase_self (fs : FS) (p : String) :
    (fs.erase p).lookup p = none :=
  lookup_filter_self fs.files p

/-- An erase leaves other paths untouched. -/
theorem FS.lookup_erase_ne (fs : FS) {p q : String} (h : p ≠ q) :
    (fs.erase q).lookup p = fs.lookup p :=
  lookup_filter_ne fs.files p q h

/-- C2 (amended): for a named manager with no layout payload, a dry-run
`save` (`persist = false`) performs no filesystem write at all — whether it
returns the text or is rejected for targeting a different path.  (For an
unnamed manager the implicit first-save rename still creates an empty file
at the target, per the counterexample.) -/
theorem c2_amended_named_dry_run_touches_no_file
    (fuel : Nat) (cg : Codegen) (m : AppFileManager) (fs : FS)
    (request : SaveNotebookRequest) (f : String)
    (hnamed : m.filename = some f)
    (hpersist : request.persist = false)
    (hlayout : request.layout = none) :
    (save fuel cg m fs request).fs = fs := by
  unfold save _save_file
  simp only [hlayout, hpersist, AppFileManager._is_unnamed, hnamed,
    Option.isNone_some, Bool.false_eq_true, if_false]
  split <;> rfl

/-- C2 witness: the amended theorem applied to a named manager with a
dry-run request at its own path. -/
theorem c2_amended_witness :
    mA.filename = some "/tmp/a.py" ∧
    ({ reqPdry with filename := "/tmp/a.py" } : SaveNotebookRequest).persist
      = false ∧
    ({ reqPdry with filename := "/tmp/a.py" } : SaveNotebookRequest).layout
      = none ∧
    (save 4 cgW mA fsA { reqPdry with filename := "/tmp/a.py" }).fs = fsA :=
  ⟨rfl, rfl, rfl,
   c2_amended_named_dry_run_touches_no_file 4 cgW mA fsA
     { reqPdry with filename := "/tmp/a.py" } "/tmp/a.py" rfl rfl rfl⟩

/-- C4: renaming a named manager to a path whose extension class differs
(here a `.md` target) moves the file, adopts the new path, and immediately
re-saves there, so the new file holds the markup export of the renamed
manager — not the native-format content — and nothing remains at the old
path. -/
theorem c4_rename_extension_change_resaves_markup
    (fuel : Nat) (cg : Codegen) (m : AppFileManager) (fs : FS)
    (p old content : String)
    (hnamed : m.filename = some old)
    (hold : fs.lookup old = some content)
    (hmd : strEndsWith (canonicalize_filename p) ".md" = true)
    (hnotsame : m._is_same_path (canonicalize_filename p) = false)
    (hnotex : fs.existsPath (canonicalize_filename p) = false)
    (hext : (lastThree old != lastThree (canonicalize_filename p)) = true)
    (hw : canonicalize_filename p ∉ fs.unwritable) :
    (rename (fuel + 1) cg m fs p).result = .ok () ∧
    (rename (fuel + 1) cg m fs p).manager =
      { m with filename := some (canonicalize_filename p) } ∧
    ((rename (fuel + 1) cg m fs p).fs).lookup (canonicalize_filename p) =
      some (cg.export_as_md
        { m with filename := some (canonicalize_filename p) }) ∧
    ((rename (fuel + 1) cg m fs p).fs).lookup old = none := by
  have hne : old ≠ canonicalize_filename p := by
    intro he
    have hb := hnotsame
    simp only [AppFileManager._is_same_path, hnamed] at hb
    rw [he] at hb
    simp at hb
  have key : rename (fuel + 1) cg m fs p =
      { result := .ok (),
        manager := { m with filename := some (canonicalize_filename p) },
        fs := (((fs.erase old).write (canonicalize_filename p) content).write
          (canonicalize_filename p)
          (cg.export_as_md
            { m with filename := some (canonicalize_filename p) })) } := by
    unfold rename _assert_path_does_not_exist _rename_file
    simp only [hnotsame, hnotex, hnamed, hold, hext, Bool.false_eq_true,
      if_false, ite_false]
    unfold _save_file _create_file
    simp [hmd, hw, AppFileManager._is_unnamed, FS.write, FS.erase,
      Except.map]
  rw [key]
  refine ⟨rfl, rfl, ?_, ?_⟩
  · exact FS.lookup_write_self _ _ _
  · rw [FS.lookup_write_ne _ _ hne, FS.lookup_write_ne _ _ hne]
    exact FS.lookup_erase_self fs old

/-- C4 witness: the theorem applied to the named manager at `/tmp/a.py`
renamed to `/tmp/a.md`. -/
theorem c4_witness :
    mA.filename = some "/tmp/a.py" ∧
    fsA.lookup "/tmp/a.py" = some "# generated\nx=1" ∧
    strEndsWith (canonicalize_filename "/tmp/a.md") ".md" = true ∧
    mA._is_same_path (canonicalize_filename "/tmp/a.md") = false ∧
    fsA.existsPath (canonicalize_filename "/tmp/a.md") = false ∧
    (lastThree "/tmp/a.py" != lastThree (canonicalize_filename "/tmp/a.md"))
      = true ∧
    canonicalize_filename "/tmp/a.md" ∉ fsA.unwritable ∧
    ((rename 4 cgW mA fsA "/tmp/a.md").result = .ok () ∧
     (rename 4 cgW mA fsA "/tmp/a.md").manager =
       { mA with filename := some (canonicalize_filename "/tmp/a.md") } ∧
     ((rename 4 cgW mA fsA "/tmp/a.md").fs).lookup
         (canonicalize_filename "/tmp/a.md") =
       some (cgW.export_as_md
         { mA with filename := some (canonicalize_filename "/tmp/a.md") }) ∧
     ((rename 4 cgW mA fsA "/tmp/a.md").fs).lookup "/tmp/a.py" = none) :=
  ⟨rfl, by decide, by decide, by decide, by decide, by decide, by decide,
   c4_rename_extension_change_resaves_markup 3 cgW mA fsA "/tmp/a.md"
     "/tmp/a.py" "# generated\nx=1" rfl (by decide) (by decide) (by decide)
     (by decide) (by decide) (by decide)⟩

/-- C6: construction/load always yields at least one cell — an absent or
unparsable target seeds exactly one empty cell (and an absent path means
the manager is unnamed), and a parsed document with zero cells is padded to
exactly one empty cell. -/
theorem c6_load_seeds_at_least_one_cell
    (filename default_width : Option String) (parsed : Option InternalApp) :
    1 ≤ (AppFileManager.init filename default_width
        parsed).app.cell_manager.codes.length ∧
    (parsed = none →
      (AppFileManager.init filename default_width
        parsed).app.cell_manager.codes = [""]) ∧
    (filename = none →
      (AppFileManager.init filename default_width parsed)._is_unnamed
        = true) ∧
    (∀ app : InternalApp, parsed = some app → app.cell_manager.codes = [] →
      (AppFileManager.init filename default_width
        parsed).app.cell_manager.codes = [""]) := by
  refine ⟨?_, ?_, ?_, ?_⟩
  · cases parsed with
    | none =>
      simp [AppFileManager.init, _load_app, InternalApp.register_cell,
        CellManager.register_cell]
    | some app =>
      simp only [AppFileManager.init, _load_app,
        InternalApp.ensure_one_cell, CellManager.ensure_one_cell]
      by_cases h : app.cell_manager.codes.isEmpty
      · simp [h, CellManager.register_cell]
      · simp only [h, if_false, Bool.false_eq_true]
        cases hc : app.cell_manager.codes with
        | nil => rw [hc] at h; simp at h
        | cons a l => simp [hc]
  · intro hp
    subst hp
    rfl
  · intro hf
    subst hf
    rfl
  · intro app hp hc
    subst hp
    simp [AppFileManager.init, _load_app, InternalApp.ensure_one_cell,
      CellManager.ensure_one_cell, hc, CellManager.register_cell]

/-- C6 witness: the theorem applied to a fresh unnamed construction and to
a parsed zero-cell document. -/
theorem c6_witness :
    1 ≤ (AppFileManager.init none none none).app.cell_manager.codes.length ∧
    (AppFileManager.init none none none).app.cell_manager.codes = [""] ∧
    (AppFileManager.init none none none)._is_unnamed = true ∧
    (AppFileManager.init (some "/tmp/a.py") none
      (some { cell_manager := {} })).app.cell_manager.codes = [""] :=
  ⟨(c6_load_seeds_at_least_one_cell none none none).1,
   (c6_load_seeds_at_least_one_cell none none none).2.1 rfl,
   (c6_load_seeds_at_least_one_cell none none none).2.2.1 rfl,
   (c6_load_seeds_at_least_one_cell (some "/tmp/a.py") none
     (some { cell_manager := {} })).2.2.2 { cell_manager := {} } rfl rfl⟩

/-- Helper: every error `FS.readFile` produces is a raw `OSError`. -/
theorem readFile_error_os {fs : FS} {p : String} {e : Err}
    (h : fs.readFile p = .error e) : ∃ msg, e = Err.os msg := by
  cases hl : fs.lookup p with
  | none =>
    have hr : fs.readFile p =
        .error (.os ("No such file or directory: " ++ p)) := by
      unfold FS.readFile
      rw [hl]
    rw [hr] at h
    exact ⟨_, (Except.error.inj h.symm)⟩
  | some c =>
    by_cases hu : p ∈ fs.unreadable
    · have hr : fs.readFile p = .error (.os ("Permission denied: " ++ p)) := by
        unfold FS.readFile
        rw [hl]
        show (if p ∈ fs.unreadable then
            Except.error (Err.os ("Permission denied: " ++ p))
          else Except.ok c) = _
        rw [if_pos hu]
      rw [hr] at h
      exact ⟨_, (Except.error.inj h.symm)⟩
    · have hr : fs.readFile p = .ok c := by
        unfold FS.readFile
        rw [hl]
        show (if p ∈ fs.unreadable then
            Except.error (Err.os ("Permission denied: " ++ p))
          else Except.ok c) = _
        rw [if_neg hu]
      rw [hr] at h
      simp at h

/-- C7 (amended): `copy` returns the destination's base name and is
independent of the manager's own state; a missing source surfaces as the
raw filesystem error, not as a structured server-error `HTTPException`. -/
theorem c7_amended_copy_behavior :
    (∀ (m m2 : AppFileManager) (fs : FS) (r : CopyNotebookRequest),
        copy m fs r = copy m2 fs r) ∧
    (∀ (m : AppFileManager) (fs : FS) (r : CopyNotebookRequest)
        (c : String),
        fs.readFile r.source = .ok c → r.destination ∉ fs.unwritable →
        copy m fs r = .ok (basename r.destination,
          fs.write r.destination c)) ∧
    (∀ (m : AppFileManager) (fs : FS) (r : CopyNotebookRequest),
        fs.lookup r.source = none →
        copy m fs r =
          .error (.os ("No such file or directory: " ++ r.source)) ∧
        isHttpError (copy m fs r) = false) := by
  refine ⟨fun m m2 fs r => rfl, ?_, ?_⟩
  · intro m fs r c hok hw
    unfold copy
    rw [hok]
    simp [hw]
  · intro m fs r hmiss
    have hcp : copy m fs r =
        .error (.os ("No such file or directory: " ++ r.source)) := by
      unfold copy FS.readFile
      rw [hmiss]
    refine ⟨hcp, ?_⟩
    rw [hcp]
    rfl

/-- C7 witness: the amended theorem applied to a successful concrete copy
and to a copy with a missing source. -/
theorem c7_amended_witness :
    fsA.readFile "/tmp/a.py" = .ok "# generated\nx=1" ∧
    ("/tmp/c.py" : String) ∉ fsA.unwritable ∧
    copy mA fsA { source := "/tmp/a.py", destination := "/tmp/c.py" } =
      .ok (basename "/tmp/c.py", fsA.write "/tmp/c.py" "# generated\nx=1") ∧
    fs0.lookup "a.py" = none ∧
    (copy mA fs0 reqCopyMissing =
      .error (.os ("No such file or directory: " ++ "a.py")) ∧
     isHttpError (copy mA fs0 reqCopyMissing) = false) :=
  ⟨by decide, by decide,
   c7_amended_copy_behavior.2.1 mA fsA
     { source := "/tmp/a.py", destination := "/tmp/c.py" }
     "# generated\nx=1" (by decide) (by decide),
   by decide,
   c7_amended_copy_behavior.2.2 mA fs0 reqCopyMissing (by decide)⟩

/-- C8: `read_file` raises the 400 "Cannot read code from an unnamed
notebook" error exactly when the manager has no filename, and on a named
manager whose file opens successfully it returns the contents with
surrounding whitespace stripped. -/
theorem c8_read_file_unnamed_error_iff (m : AppFileManager) (fs : FS) :
    (read_file m fs =
        .error (.http .BAD_REQUEST
          "Cannot read code from an unnamed notebook") ↔
      m.filename = none) ∧
    (∀ (f c : String), m.filename = some f → fs.readFile f = .ok c →
      read_file m fs = .ok (strTrim c)) := by
  constructor
  · constructor
    · intro h
      cases hm : m.filename with
      | none => rfl
      | some f =>
        have hred : read_file m fs =
            (match fs.readFile f with
              | .error e => .error e
              | .ok contents => .ok (strTrim contents)) := by
          unfold read_file
          rw [hm]
        rw [hred] at h
        cases hr : fs.readFile f with
        | ok c =>
          rw [hr] at h
          simp at h
        | error e =>
          obtain ⟨msg, he⟩ := readFile_error_os hr
          rw [hr, he] at h
          simp at h
    · intro h
      unfold read_file
      rw [h]
  · intro f c hm hok
    have hred : read_file m fs =
        (match fs.readFile f with
          | .error e => .error e
          | .ok contents => .ok (strTrim contents)) := by
      unfold read_file
      rw [hm]
    rw [hred, hok]

/-- C8 witness: the theorem applied to an unnamed manager and to a named
manager with a readable file. -/
theorem c8_witness :
    mUnnamed.filename = none ∧
    read_file mUnnamed fs0 =
      .error (.http .BAD_REQUEST
        "Cannot read code from an unnamed notebook") ∧
    mA.filename = some "/tmp/a.py" ∧
    fsA.readFile "/tmp/a.py" = .ok "# generated\nx=1" ∧
    read_file mA fsA = .ok (strTrim "# generated\nx=1") :=
  ⟨rfl,
   (c8_read_file_unnamed_error_iff mUnnamed fs0).1.mpr rfl,
   rfl, by decide,
   (c8_read_file_unnamed_error_iff mA fsA).2 "/tmp/a.py" "# generated\nx=1"
     rfl (by decide)⟩

/-- C9: the module-level side-file readers are total soft-absence
functions: they yield `none` for an empty relative name, an absent or empty
document path, a missing resolved file, or a resolved file that exists but
cannot be opened. -/
theorem c9_side_file_readers_soft_absence
    (fs : FS) (rel : String) (docPath : Option String) :
    (rel = "" →
      read_css_file fs rel docPath = none ∧
      read_html_head_file fs rel docPath = none) ∧
    (docPath = none ∨ docPath = some "" →
      read_css_file fs rel docPath = none ∧
      read_html_head_file fs rel docPath = none) ∧
    (∀ f, docPath = some f →
      fs.existsPath (joinPath (dirname f) rel) = false →
      read_css_file fs rel docPath = none ∧
      read_html_head_file fs rel docPath = none) ∧
    (∀ f, docPath = some f →
      joinPath (dirname f) rel ∈ fs.unreadable →
      read_css_file fs rel docPath = none ∧
      read_html_head_file fs rel docPath = none) := by
  have h0 : ("" : String).isEmpty = true := by decide
  refine ⟨?_, ?_, ?_, ?_⟩
  · intro h
    subst h
    cases docPath with
    | none => exact ⟨rfl, rfl⟩
    | some f => simp [read_css_file, read_html_head_file, h0]
  · intro h
    rcases h with h | h
    · subst h
      exact ⟨rfl, rfl⟩
    · subst h
      simp [read_css_file, read_html_head_file, h0]
  · intro f hf hex
    subst hf
    simp [read_css_file, read_html_head_file, hex, ite_self]
  · intro f hf hu
    subst hf
    cases hl : fs.lookup (joinPath (dirname f) rel) with
    | none =>
      simp [read_css_file, read_html_head_file, FS.existsPath, hl, ite_self]
    | some c =>
      simp [read_css_file, read_html_head_file, FS.existsPath, FS.readFile,
        hl, hu, ite_self]

/-- C9 witness: the theorem applied at concrete inputs for each
soft-absence case. -/
theorem c9_witness :
    (read_css_file fs0 "" (some "/tmp/a.py") = none ∧
     read_html_head_file fs0 "" (some "/tmp/a.py") = none) ∧
    (read_css_file fs0 "style.css" none = none ∧
     read_html_head_file fs0 "style.css" none = none) ∧
    (fs0.existsPath (joinPath (dirname "/tmp/a.py") "style.css") = false ∧
     (read_css_file fs0 "style.css" (some "/tmp/a.py") = none ∧
      read_html_head_file fs0 "style.css" (some "/tmp/a.py") = none)) ∧
    (joinPath (dirname "/tmp/a.py") "style.css" ∈
        (FS.mk [("/tmp/style.css", "body")] ["/tmp/style.css"] []).unreadable ∧
     (read_css_file (FS.mk [("/tmp/style.css", "body")] ["/tmp/style.css"] [])
        "style.css" (some "/tmp/a.py") = none ∧
      read_html_head_file
        (FS.mk [("/tmp/style.css", "body")] ["/tmp/style.css"] [])
        "style.css" (some "/tmp/a.py") = none)) :=
  ⟨(c9_side_file_readers_soft_absence fs0 "" (some "/tmp/a.py")).1 rfl,
   (c9_side_file_readers_soft_absence fs0 "style.css" none).2.1 (Or.inl rfl),
   ⟨by decide,
    (c9_side_file_readers_soft_absence fs0 "style.css"
      (some "/tmp/a.py")).2.2.1 "/tmp/a.py" rfl (by decide)⟩,
   ⟨by decide,
    (c9_side_file_readers_soft_absence
      (FS.mk [("/tmp/style.css", "body")] ["/tmp/style.css"] [])
      "style.css" (some "/tmp/a.py")).2.2.2 "/tmp/a.py" rfl (by decide)⟩⟩

/-- C10: the named/unnamed split is exactly `filename is None`: a manager
whose filename is the empty string is classified as named — `read_file`
attempts to open the empty path instead of raising the unnamed error, and
`save`/`rename` follow their named-manager paths — while the manager-level
CSS and HTML-head readers treat the empty filename as falsy and return
`none` without touching the filesystem. -/
theorem c10_empty_filename_named_classification
    (app : InternalApp) (fs : FS) :
    (AppFileManager.mk (some "") app)._is_unnamed = false ∧
    (AppFileManager.mk (some "") app)._is_named = true ∧
    (fs.lookup "" = none →
      read_file (AppFileManager.mk (some "") app) fs =
        .error (.os ("No such file or directory: " ++ ""))) ∧
    (AppFileManager.mk (some "") app).read_css_file fs = none ∧
    (AppFileManager.mk (some "") app).read_html_head_file fs = none ∧
    (∀ (fuel : Nat) (cg : Codegen) (fs2 : FS)
        (request : SaveNotebookRequest),
        (AppFileManager.mk (some "") app)._is_same_path
          (canonicalize_filename request.filename) = false →
        (save fuel cg (AppFileManager.mk (some "") app) fs2
            request).result =
          .error (.http .BAD_REQUEST "Save handler cannot rename files.")) ∧
    (∀ (fuel : Nat) (cg : Codegen) (fs2 : FS) (p : String),
        (AppFileManager.mk (some "") app)._is_same_path
          (canonicalize_filename p) = false →
        fs2.existsPath (canonicalize_filename p) = false →
        fs2.lookup "" = none →
        (rename fuel cg (AppFileManager.mk (some "") app) fs2 p).result =
          .error (.http .SERVER_ERROR
            ("Failed to rename from " ++ "" ++ " to " ++
              canonicalize_filename p))) := by
  have hE : strFalsy (some "") = true := by decide
  refine ⟨rfl, rfl, ?_, ?_, ?_, ?_, ?_⟩
  · intro hl
    have hr : fs.readFile "" =
        .error (.os ("No such file or directory: " ++ "")) := by
      unfold FS.readFile
      rw [hl]
    have hred : read_file (AppFileManager.mk (some "") app) fs =
        (match fs.readFile "" with
          | .error e => .error e
          | .ok contents => .ok (strTrim contents)) := rfl
    rw [hred, hr]
  · unfold AppFileManager.read_css_file
    simp [hE]
  · unfold AppFileManager.read_html_head_file
    simp [hE]
  · intro fuel cg fs2 request hdiff
    rw [save_named_reject fuel cg (AppFileManager.mk (some "") app) fs2
      request "" rfl hdiff]
  · intro fuel cg fs2 p hdiff hex hl
    rw [rename_fs_rename_fails fuel cg (AppFileManager.mk (some "") app)
      fs2 p "" rfl hdiff hex hl]

/-- C10 witness: the theorem applied to a concrete one-cell document with
the empty-string filename. -/
theorem c10_witness :
    (AppFileManager.mk (some "") appA)._is_unnamed = false ∧
    fs0.lookup "" = none ∧
    read_file (AppFileManager.mk (some "") appA) fs0 =
      .error (.os ("No such file or directory: " ++ "")) ∧
    (AppFileManager.mk (some "") appA).read_css_file fs0 = none ∧
    (AppFileManager.mk (some "") appA).read_html_head_file fs0 = none ∧
    (AppFileManager.mk (some "") appA)._is_same_path
      (canonicalize_filename reqB.filename) = false ∧
    (save 4 cgW (AppFileManager.mk (some "") appA) fs0 reqB).result =
      .error (.http .BAD_REQUEST "Save handler cannot rename files.") ∧
    (rename 4 cgW (AppFileManager.mk (some "") appA) fs0
        "/tmp/c.py").result =
      .error (.http .SERVER_ERROR
        ("Failed to rename from " ++ "" ++ " to " ++
          canonicalize_filename "/tmp/c.py")) :=
  ⟨(c10_empty_filename_named_classification appA fs0).1,
   by decide,
   (c10_empty_filename_named_classification appA fs0).2.2.1 (by decide),
   (c10_empty_filename_named_classification appA fs0).2.2.2.1,
   (c10_empty_filename_named_classification appA fs0).2.2.2.2.1,
   by decide,
   (c10_empty_filename_named_classification appA fs0).2.2.2.2.2.1
     4 cgW fs0 reqB (by decide),
   (c10_empty_filename_named_classification appA fs0).2.2.2.2.2.2
     4 cgW fs0 "/tmp/c.py" (by decide) (by decide) (by decide)⟩

end MarimoFM
